import Mathlib

/-
Verification of the exercise answer model, grading engine, completeness gate,
option-marking logic and lesson-content caching of the German learning app
(source: src/index.tsx).  TypeScript values of type
`string | (string | null)[] | null` are embedded as the `Answer` inductive;
JavaScript strict equality between possibly-null/undefined strings is embedded
via `JSVal`/`jsEq`; code paths that would raise a TypeError at runtime are
embedded as `Option` results returning `none`.
-/

set_option autoImplicit false

namespace DeutschLernen

/-- Speaker tag of a dialogue turn (source: `DialogueTurn.speaker`). -/
inductive Speaker where
  | agent
  | user
deriving DecidableEq, BEq

/-- One turn of a dialogue-simulation exercise (source: `interface DialogueTurn`).
Optional fields are `Option`s, mirroring the optional TS fields. -/
structure DialogueTurn where
  speaker : Speaker
  line : Option String
  prompt : Option String
  options : Option (List String)
  correctAnswer : Option String
deriving DecidableEq

/-- The closed union of the six exercise variants (source: `type Exercise`). -/
inductive Exercise where
  | singleBlank (sentence englishSentence hint : String)
      (options : List String) (correctAnswer : String)
  | doubleBlank (sentence englishSentence hint : String)
      (options1 : List String) (correctAnswer1 : String)
      (options2 : List String) (correctAnswer2 : String)
  | tripleBlank (sentence englishSentence hint : String)
      (options1 : List String) (correctAnswer1 : String)
      (options2 : List String) (correctAnswer2 : String)
      (options3 : List String) (correctAnswer3 : String)
  | sentenceScramble (englishSentence correctSentence : String)
      (scrambledWords : List String)
  | dialogueSimulation (scenario englishSentence : String)
      (dialogue : List DialogueTurn)
  | imageAssociation (imageUrl englishSentence : String)
      (options : List String) (correctAnswer : String)
deriving DecidableEq

/-- A per-exercise answer (source: `type Answer = string | (string | null)[] | null`).
An entry of an `arr` is `none` for a JS `null` slot. -/
inductive Answer where
  | str (s : String)
  | arr (xs : List (Option String))
  | null
deriving DecidableEq

/-- A JS value read out of an answer slot: `undefined` (out of bounds),
`null`, or a string. -/
inductive JSVal where
  | undef
  | null
  | str (s : String)
deriving DecidableEq

/-- JS strict equality (`===`) restricted to the values that appear in answer
slots and answer keys. -/
def jsEq : JSVal → JSVal → Bool
  | JSVal.undef, JSVal.undef => true
  | JSVal.null, JSVal.null => true
  | JSVal.str s, JSVal.str t => s == t
  | _, _ => false

/-- The JS value of an optional TS field (`undefined` when absent). -/
def optVal : Option String → JSVal
  | none => JSVal.undef
  | some s => JSVal.str s

/-- The JS value of `xs[i]` for an array of `string | null`:
`undefined` out of bounds, otherwise the slot content. -/
def slotVal (xs : List (Option String)) (i : Nat) : JSVal :=
  match xs.get? i with
  | none => JSVal.undef
  | some none => JSVal.null
  | some (some s) => JSVal.str s

/-- JS `answer.join(' ')` on an array of `string | null`
(`null` renders as the empty string). -/
def joinSpace (xs : List (Option String)) : String :=
  String.intercalate " " (xs.map (fun o => o.getD ""))

/-- JS `answer === key` where `answer : Answer` and `key` is a string:
only a string answer can compare equal. -/
def answerEqStr : Answer → String → Bool
  | Answer.str s, t => s == t
  | _, _ => false

/-- `exercise.dialogue.filter(turn => turn.speaker === 'user')`. -/
def userTurns (dialogue : List DialogueTurn) : List DialogueTurn :=
  dialogue.filter (fun t => t.speaker == Speaker.user)

/-- `userTurns.every((turn, turnIndex) => Array.isArray(answer) &&
answer[turnIndex] === turn.correctAnswer)` (source: `checkAnswers`,
dialogue-simulation branch), as a recursion carrying the turn index. -/
def dialogueEvery (a : Answer) : List DialogueTurn → Nat → Bool
  | [], _ => true
  | t :: ts, i =>
      (match a with
        | Answer.arr xs => jsEq (slotVal xs i) (optVal t.correctAnswer)
        | _ => false) && dialogueEvery a ts (i + 1)

/-- Whether one exercise is graded fully correct (source: the per-variant
branches of `checkAnswers`). -/
def isExerciseCorrect : Exercise → Answer → Bool
  | Exercise.singleBlank _ _ _ _ key, a => answerEqStr a key
  | Exercise.imageAssociation _ _ _ key, a => answerEqStr a key
  | Exercise.doubleBlank _ _ _ _ k1 _ k2, a =>
      match a with
      | Answer.arr xs =>
          jsEq (slotVal xs 0) (JSVal.str k1) && jsEq (slotVal xs 1) (JSVal.str k2)
      | _ => false
  | Exercise.tripleBlank _ _ _ _ k1 _ k2 _ k3, a =>
      match a with
      | Answer.arr xs =>
          jsEq (slotVal xs 0) (JSVal.str k1) && jsEq (slotVal xs 1) (JSVal.str k2) &&
            jsEq (slotVal xs 2) (JSVal.str k3)
      | _ => false
  | Exercise.sentenceScramble _ correct _, a =>
      match a with
      | Answer.arr xs => joinSpace xs == correct
      | _ => false
  | Exercise.dialogueSimulation _ _ d, a => dialogueEvery a (userTurns d) 0

/-- `userAnswers.forEach((answer, index) => ...)` of `checkAnswers`: walk the
answer list with its index, look the exercise up by index (a missing exercise
is a TypeError, embedded as `none`), and accumulate the score. -/
def checkAnswersAux (exercises : List Exercise) : List Answer → Nat → Option Nat
  | [], _ => some 0
  | a :: rest, i =>
      match exercises.get? i with
      | none => none
      | some ex =>
          match checkAnswersAux exercises rest (i + 1) with
          | none => none
          | some s => some ((if isExerciseCorrect ex a then 1 else 0) + s)

/-- The grading engine (source: `checkAnswers`): the resulting score, or `none`
when the iteration hits an answer index with no exercise. -/
def checkAnswers (exercises : List Exercise) (answers : List Answer) : Option Nat :=
  checkAnswersAux exercises answers 0

/-- The empty answer for one exercise (source: body of `initializeAnswers`). -/
def initAnswer : Exercise → Answer
  | Exercise.doubleBlank _ _ _ _ _ _ _ => Answer.arr [none, none]
  | Exercise.tripleBlank _ _ _ _ _ _ _ _ _ => Answer.arr [none, none, none]
  | Exercise.sentenceScramble _ _ _ => Answer.arr []
  | Exercise.dialogueSimulation _ _ d =>
      Answer.arr (List.replicate (userTurns d).length none)
  | _ => Answer.null

/-- Source: `initializeAnswers`. -/
def initializeAnswers (exercises : List Exercise) : List Answer :=
  exercises.map initAnswer

/-- JS array index assignment `xs[i] = v`: in-range indices are overwritten;
an out-of-range index extends the array, the holes reading as null-like
unset slots (embedded as `hole`). -/
def jsArraySet {α : Type} (xs : List α) (i : Nat) (v : α) (hole : α) : List α :=
  if i < xs.length then xs.set i v
  else xs ++ List.replicate (i - xs.length) hole ++ [v]

/-- `tuple[blankIndex] = option` on a `(string | null)[]`. -/
def listSetSlot (xs : List (Option String)) (i : Nat) (v : Option String) :
    List (Option String) :=
  jsArraySet xs i v none

/-- `newAnswers[exerciseIndex] = v` on the answers array. -/
def listSetAnswer (xs : List Answer) (i : Nat) (v : Answer) : List Answer :=
  jsArraySet xs i v Answer.null

/-- `[...s]`: spreading a JS string yields its single-character strings. -/
def strChars (s : String) : List (Option String) :=
  s.data.map (fun c => some (String.singleton c))

/-- `[...((newAnswers[i] as (string|null)[]) || defaultTuple)]`: a falsy answer
(null, undefined, empty string) falls back to the default tuple; an array is
copied; a non-empty string spreads into its characters. -/
def tupleOfAnswer : Option Answer → List (Option String) → List (Option String)
  | none, dflt => dflt
  | some Answer.null, dflt => dflt
  | some (Answer.str s), dflt => if s.isEmpty then dflt else strChars s
  | some (Answer.arr xs), _ => xs

/-- Source: `handleAnswerSelect`.  `none` is the TypeError raised when
`currentExercises[exerciseIndex]` is undefined. -/
def handleAnswerSelect (checkedFlag : Bool) (exercises : List Exercise)
    (answers : List Answer) (exerciseIndex : Nat) (selectedOption : String)
    (blankIndex : Option Nat) : Option (List Answer) :=
  if checkedFlag then some answers else
    match exercises.get? exerciseIndex with
    | none => none
    | some ex =>
        match ex, blankIndex with
        | Exercise.doubleBlank _ _ _ _ _ _ _, some bi =>
            some (listSetAnswer answers exerciseIndex
              (Answer.arr (listSetSlot
                (tupleOfAnswer (answers.get? exerciseIndex) [none, none]) bi
                (some selectedOption))))
        | Exercise.tripleBlank _ _ _ _ _ _ _ _ _, some bi =>
            some (listSetAnswer answers exerciseIndex
              (Answer.arr (listSetSlot
                (tupleOfAnswer (answers.get? exerciseIndex) [none, none, none]) bi
                (some selectedOption))))
        | _, _ =>
            some (listSetAnswer answers exerciseIndex (Answer.str selectedOption))

/-- Where a moved word comes from (source: the `source` argument of
`handleWordMove`). -/
inductive WordSource where
  | bank
  | sentence
deriving DecidableEq

/-- `[...((newAnswers[i] as string[]) || [])]` in `handleWordMove`. -/
def sentenceOfAnswer : Option Answer → List (Option String)
  | none => []
  | some Answer.null => []
  | some (Answer.str s) => if s.isEmpty then [] else strChars s
  | some (Answer.arr xs) => xs

/-- Source: `handleWordMove`.  Never raises: the only reads are guarded by
`|| []`, and `splice` out of range is a no-op. -/
def handleWordMove (checkedFlag : Bool) (answers : List Answer)
    (exerciseIndex : Nat) (word : String) (source : WordSource)
    (wordIndexInSentence : Option Nat) : List Answer :=
  if checkedFlag then answers else
    let cur := sentenceOfAnswer (answers.get? exerciseIndex)
    let cur2 :=
      match source, wordIndexInSentence with
      | WordSource.bank, _ => cur ++ [some word]
      | WordSource.sentence, some j => cur.eraseIdx j
      | WordSource.sentence, none => cur
    listSetAnswer answers exerciseIndex (Answer.arr cur2)

/-- Source: `handleDialogueAnswer`.  Spreading a null or undefined answer entry
is a TypeError (`none`); spreading a string yields its characters. -/
def handleDialogueAnswer (checkedFlag : Bool) (answers : List Answer)
    (exerciseIndex userTurnIndex : Nat) (choice : String) :
    Option (List Answer) :=
  if checkedFlag then some answers else
    match answers.get? exerciseIndex with
    | none => none
    | some Answer.null => none
    | some (Answer.str s) =>
        some (listSetAnswer answers exerciseIndex
          (Answer.arr (listSetSlot (strChars s) userTurnIndex (some choice))))
    | some (Answer.arr xs) =>
        some (listSetAnswer answers exerciseIndex
          (Answer.arr (listSetSlot xs userTurnIndex (some choice))))

/-- The per-answer test inside `isCheckButtonDisabled`'s `some` callback,
given that the exercise at the index exists.  `none` is the TypeError of
reading `.length` of a null answer in the sentence-scramble branch. -/
def completeRequirementViolated : Exercise → Answer → Option Bool
  | Exercise.doubleBlank _ _ _ _ _ _ _, a =>
      some (match a with
        | Answer.arr xs => xs.any (fun o => o.isNone)
        | _ => true)
  | Exercise.tripleBlank _ _ _ _ _ _ _ _ _, a =>
      some (match a with
        | Answer.arr xs => xs.any (fun o => o.isNone)
        | _ => true)
  | Exercise.sentenceScramble _ _ scrambledWords, a =>
      match a with
      | Answer.arr xs => some (xs.length != scrambledWords.length)
      | Answer.str s => some (s.length != scrambledWords.length)
      | Answer.null => none
  | Exercise.dialogueSimulation _ _ _, a =>
      some (match a with
        | Answer.arr xs => xs.any (fun o => o.isNone)
        | _ => true)
  | Exercise.singleBlank _ _ _ _ _, a =>
      some (match a with | Answer.null => true | _ => false)
  | Exercise.imageAssociation _ _ _ _, a =>
      some (match a with | Answer.null => true | _ => false)

/-- `userAnswers.some((answer, index) => ...)`: walk the answers with their
index; a missing exercise makes the callback return true; `some`
short-circuits on the first true. -/
def anyIncomplete (exercises : List Exercise) : List Answer → Nat → Option Bool
  | [], _ => some false
  | a :: rest, i =>
      match exercises.get? i with
      | none => some true
      | some ex =>
          match completeRequirementViolated ex a with
          | none => none
          | some true => some true
          | some false => anyIncomplete exercises rest (i + 1)

/-- Source: `isCheckButtonDisabled`. -/
def isCheckButtonDisabled (exercises : List Exercise) (answers : List Answer) :
    Option Bool :=
  if exercises.isEmpty then some true else anyIncomplete exercises answers 0

/-- Source: `getOptionClassName`.  `none` is the TypeError of reading `.type`
of a missing exercise in the checked branch. -/
def getOptionClassName (checkedFlag : Bool) (exercises : List Exercise)
    (answers : List Answer) (opt : String) (exerciseIndex : Nat)
    (blankIndex : Option Nat) : Option String :=
  if checkedFlag = false then
    some (match blankIndex, answers.get? exerciseIndex with
      | some bi, some (Answer.arr xs) =>
          if jsEq (slotVal xs bi) (JSVal.str opt) then "selected" else ""
      | _, ansv =>
          if (match ansv with | some (Answer.str s) => s == opt | _ => false)
          then "selected" else "")
  else
    match exercises.get? exerciseIndex with
    | none => none
    | some (Exercise.singleBlank _ _ _ _ key) =>
        some (if opt == key then "correct"
          else if (match answers.get? exerciseIndex with
            | some (Answer.str s) => s == opt
            | _ => false) then "incorrect"
          else "")
    | some (Exercise.imageAssociation _ _ _ key) =>
        some (if opt == key then "correct"
          else if (match answers.get? exerciseIndex with
            | some (Answer.str s) => s == opt
            | _ => false) then "incorrect"
          else "")
    | some (Exercise.doubleBlank _ _ _ _ k1 _ k2) =>
        match blankIndex with
        | none => some ""
        | some bi =>
            some (if opt == (if bi = 0 then k1 else k2) then "correct"
              else if (match answers.get? exerciseIndex with
                | some (Answer.arr xs) => jsEq (slotVal xs bi) (JSVal.str opt)
                | _ => false) then "incorrect"
              else "")
    | some (Exercise.tripleBlank _ _ _ _ k1 _ k2 _ k3) =>
        match blankIndex with
        | none => some ""
        | some bi =>
            some (if opt == (if bi = 0 then k1 else if bi = 1 then k2 else k3)
              then "correct"
              else if (match answers.get? exerciseIndex with
                | some (Answer.arr xs) => jsEq (slotVal xs bi) (JSVal.str opt)
                | _ => false) then "incorrect"
              else "")
    | some _ => some ""

/-- The part of `getDialogueOptionClassName` after `userAnswer` has been read
out of the answers array. -/
def getDialogueOptionClassNameCore (checkedFlag : Bool)
    (exercises : List Exercise) (opt : String)
    (exerciseIndex userTurnIndex : Nat) (userAnswer : JSVal) : Option String :=
  if checkedFlag = false then
    some (if jsEq userAnswer (JSVal.str opt) then "selected" else "")
  else
    match exercises.get? exerciseIndex with
    | some (Exercise.dialogueSimulation _ _ d) =>
        match (userTurns d).get? userTurnIndex with
        | none => none
        | some turn =>
            some (if jsEq (JSVal.str opt) (optVal turn.correctAnswer)
              then "correct"
              else if jsEq userAnswer (JSVal.str opt) then "incorrect"
              else "")
    | _ => none

/-- Source: `getDialogueOptionClassName`.  Indexing into a null or missing
answer entry is a TypeError (`none`); indexing into a string yields a
character or undefined. -/
def getDialogueOptionClassName (checkedFlag : Bool) (exercises : List Exercise)
    (answers : List Answer) (opt : String) (exerciseIndex userTurnIndex : Nat) :
    Option String :=
  match answers.get? exerciseIndex with
  | none => none
  | some Answer.null => none
  | some (Answer.str s) =>
      getDialogueOptionClassNameCore checkedFlag exercises opt exerciseIndex
        userTurnIndex
        (match s.data.get? userTurnIndex with
          | some c => JSVal.str (String.singleton c)
          | none => JSVal.undef)
  | some (Answer.arr xs) =>
      getDialogueOptionClassNameCore checkedFlag exercises opt exerciseIndex
        userTurnIndex (slotVal xs userTurnIndex)

/-- `available.indexOf(word)` followed by `available.splice(i, 1)`: remove the
first occurrence of a word, or leave the list unchanged when absent
(source: the `bankWords` derivation in the practice2 renderer). -/
def removeFirst : List String → String → List String
  | [], _ => []
  | x :: xs, w => if x == w then xs else x :: removeFirst xs w

/-- The derived word bank (source: `bankWords` in the practice2 renderer):
start from the scrambled bag and remove one occurrence per built word. -/
def bankWords (scrambledWords builtSentence : List String) : List String :=
  builtSentence.foldl removeFirst scrambledWords

/-- Lesson metadata from the catalog (source: `interface Lesson`, the fields
`handleSelectLesson` reads). -/
structure LessonInfo where
  id : String
  file : Option String
deriving DecidableEq

/-- A level of the catalog (source: `interface Level`, the field
`handleSelectLesson` reads). -/
structure CatalogLevel where
  lessons : List LessonInfo
deriving DecidableEq

/-- The state `handleSelectLesson` interacts with: the `loadedLessons` cache
(content abstracted to a numeric payload) plus the list of content fetches
issued so far, in order. -/
structure SelectLessonState where
  loadedLessons : List (String × Nat)
  fetchLog : List String
deriving DecidableEq

/-- JS object property lookup `loadedLessons[lessonId]`. -/
def lookupLoaded : List (String × Nat) → String → Option Nat
  | [], _ => none
  | (k2, v) :: rest, k => if k2 == k then some v else lookupLoaded rest k

/-- JS object spread `{ ...prev, [lessonId]: data }`: an existing key keeps its
position with the new value, a new key is appended. -/
def insertLoaded : List (String × Nat) → String → Nat → List (String × Nat)
  | [], k, v => [(k, v)]
  | (k2, v2) :: rest, k, v =>
      if k2 == k then (k2, v) :: rest else (k2, v2) :: insertLoaded rest k v

/-- Source: `handleSelectLesson`, restricted to its fetch-issuing effect: when
the lesson is not in the cache and the catalog gives it a content file, a
fetch for it is issued (appended to the log). -/
def handleSelectLesson (catalog : List CatalogLevel) (st : SelectLessonState)
    (lessonId : String) : SelectLessonState :=
  match lookupLoaded st.loadedLessons lessonId with
  | some _ => st
  | none =>
      let level := catalog.find?
        (fun lv => lv.lessons.any (fun les => les.id == lessonId))
      let lessonInfo :=
        match level with
        | some lv => lv.lessons.find? (fun l : LessonInfo => l.id == lessonId)
        | none => none
      match lessonInfo with
      | some li =>
          match li.file with
          | some _ =>
              SelectLessonState.mk st.loadedLessons (st.fetchLog ++ [lessonId])
          | none => st
      | none => st

/-- The `.then` continuation of the fetch in `handleSelectLesson`:
`setLoadedLessons(prev => ({ ...prev, [lessonId]: lessonData }))`. -/
def resolveLessonFetch (st : SelectLessonState) (lessonId : String)
    (data : Nat) : SelectLessonState :=
  SelectLessonState.mk (insertLoaded st.loadedLessons lessonId data) st.fetchLog

/- ==================== spec-side definitions ==================== -/

/-- Per-exercise correctness as worded by the specification (claim side, to be
compared with `isExerciseCorrect`): dialogue part, one user turn at a time. -/
def specDialogueOk (a : Answer) : List DialogueTurn → Nat → Bool
  | [], _ => true
  | t :: ts, i =>
      (match a, t.correctAnswer with
        | Answer.arr xs, some k => decide (xs.get? i = some (some k))
        | _, _ => false) && specDialogueOk a ts (i + 1)

/-- Per-exercise correctness as worded by the specification (claim side):
exact string equality with the key per blank, joined-sequence equality for
sentence-scramble, per-user-turn equality for dialogues. -/
def specCorrect : Exercise → Answer → Bool
  | Exercise.singleBlank _ _ _ _ key, a =>
      match a with | Answer.str s => s == key | _ => false
  | Exercise.imageAssociation _ _ _ key, a =>
      match a with | Answer.str s => s == key | _ => false
  | Exercise.doubleBlank _ _ _ _ k1 _ k2, a =>
      match a with
      | Answer.arr xs =>
          decide (xs.get? 0 = some (some k1)) && decide (xs.get? 1 = some (some k2))
      | _ => false
  | Exercise.tripleBlank _ _ _ _ k1 _ k2 _ k3, a =>
      match a with
      | Answer.arr xs =>
          decide (xs.get? 0 = some (some k1)) && decide (xs.get? 1 = some (some k2)) &&
            decide (xs.get? 2 = some (some k3))
      | _ => false
  | Exercise.sentenceScramble _ correct _, a =>
      match a with
      | Answer.arr xs => String.intercalate " " (xs.filterMap id) == correct
      | _ => false
  | Exercise.dialogueSimulation _ _ d, a => specDialogueOk a (userTurns d) 0

/-- Side conditions under which the code's grading coincides with the claim's
wording: a sentence-scramble answer array holds only placed words (no null
slot), and every user turn of a dialogue carries an answer key. -/
def gradeShapeOk : Exercise → Answer → Bool
  | Exercise.sentenceScramble _ _ _, a =>
      match a with
      | Answer.arr xs => xs.all (fun o => o.isSome)
      | _ => true
  | Exercise.dialogueSimulation _ _ d, _ =>
      (userTurns d).all (fun t => t.correctAnswer.isSome)
  | _, _ => true

/-- A fully formed answer as worded by the completeness-gate claim:
single/image need a non-null choice, tuple variants need every slot set,
sentence-scramble needs the built length to equal the bag size. -/
def fullyFormed : Exercise → Answer → Bool
  | Exercise.singleBlank _ _ _ _ _, a =>
      match a with | Answer.null => false | _ => true
  | Exercise.imageAssociation _ _ _ _, a =>
      match a with | Answer.null => false | _ => true
  | Exercise.doubleBlank _ _ _ _ _ _ _, a =>
      match a with
      | Answer.arr xs => xs.all (fun o => o.isSome)
      | _ => false
  | Exercise.tripleBlank _ _ _ _ _ _ _ _ _, a =>
      match a with
      | Answer.arr xs => xs.all (fun o => o.isSome)
      | _ => false
  | Exercise.dialogueSimulation _ _ _, a =>
      match a with
      | Answer.arr xs => xs.all (fun o => o.isSome)
      | _ => false
  | Exercise.sentenceScramble _ _ bag, a =>
      match a with
      | Answer.arr xs => xs.length == bag.length
      | _ => false

/-- Shape condition for the completeness gate: a sentence-scramble answer
entry is a sequence (anything else either crashes the gate or measures a
string's character count). -/
def gateShapeOk : Exercise → Answer → Bool
  | Exercise.sentenceScramble _ _ _, a =>
      match a with | Answer.arr _ => true | _ => false
  | _, _ => true

/-- Content that makes the all-unset store gradable as stated by the spec:
dialogues have at least one user turn and scrambles a non-empty correct
sentence (the two degenerate shapes the code grades as vacuously correct). -/
def nonDegenerate : Exercise → Bool
  | Exercise.dialogueSimulation _ _ d => !(userTurns d).isEmpty
  | Exercise.sentenceScramble _ c _ => c != ""
  | _ => true

/-- The claim's per-option marking after checking: the key is marked correct
(even when unselected), the learner's differing selection incorrect,
everything else neutral. -/
def claimMark (opt key : String) (selection : Option String) : String :=
  if opt = key then "correct" else if selection = some opt then "incorrect" else ""

/-- The learner's current selection for a single-blank / image exercise. -/
def selectedSingle (answers : List Answer) (i : Nat) : Option String :=
  match answers.get? i with
  | some (Answer.str s) => some s
  | _ => none

/-- The learner's current selection in slot `bi` of a tuple answer. -/
def selectedSlot (answers : List Answer) (i bi : Nat) : Option String :=
  match answers.get? i with
  | some (Answer.arr xs) =>
      match xs.get? bi with
      | some (some s) => some s
      | _ => none
  | _ => none

/-- The learner's current selection in a dialogue tuple slot. -/
def dialogueSelected (xs : List (Option String)) (ti : Nat) : Option String :=
  match xs.get? ti with
  | some (some s) => some s
  | _ => none

/- ==================== auxiliary list lemmas ==================== -/

theorem list_set_same {α : Type} : ∀ (l : List α) (i : Nat) (a : α),
    l.get? i = some a → l.set i a = l
  | [], _, _, h => by simp at h
  | x :: xs, 0, a, h => by
      simp at h
      simp [h]
  | x :: xs, i + 1, a, h => by
      simp at h
      rw [← List.get?_eq_getElem?] at h
      simp [List.set]
      exact list_set_same xs i a h

theorem jsArraySet_get? {α : Type} (xs : List α) (i : Nat) (v hole : α) :
    (jsArraySet xs i v hole).get? i = some v := by
  unfold jsArraySet
  split
  · rw [List.get?_eq_getElem?]
    exact List.getElem?_set_self (by assumption)
  · rename_i h
    have hle : xs.length ≤ i := Nat.le_of_not_lt h
    rw [List.get?_eq_getElem?, List.append_assoc,
      List.getElem?_append_right hle,
      List.getElem?_append_right (by simp)]
    simp

theorem jsArraySet_eq_set_of_lt {α : Type} {xs : List α} {i : Nat} (v hole : α)
    (h : i < xs.length) : jsArraySet xs i v hole = xs.set i v := by
  unfold jsArraySet
  rw [if_pos h]

theorem jsArraySet_same {α : Type} (xs : List α) (i : Nat) (v hole hole2 : α) :
    jsArraySet (jsArraySet xs i v hole) i v hole2 = jsArraySet xs i v hole := by
  have hget := jsArraySet_get? xs i v hole
  have hlt : i < (jsArraySet xs i v hole).length := by
    rcases List.get?_eq_some.mp hget with ⟨h, _⟩
    exact h
  rw [jsArraySet_eq_set_of_lt v hole2 hlt, list_set_same _ i v hget]

/- ==================== C4: checked state locks the store ==================== -/

/-- C4: once the set is in checked state, every Answer Store mutator
(`handleAnswerSelect`, `handleWordMove`, `handleDialogueAnswer`) leaves the
answer store entirely unchanged. -/
theorem checked_mutators_noop (exercises : List Exercise) (answers : List Answer)
    (i ti : Nat) (opt word choice : String) (bi : Option Nat)
    (src : WordSource) (j : Option Nat) :
    handleAnswerSelect true exercises answers i opt bi = some answers ∧
    handleWordMove true answers i word src j = answers ∧
    handleDialogueAnswer true answers i ti choice = some answers := by
  refine ⟨?_, ?_, ?_⟩ <;>
    simp [handleAnswerSelect, handleWordMove, handleDialogueAnswer]

/- ==================== C9: zero-user-turn dialogues ==================== -/

/-- C9: a dialogue-simulation exercise with no user turn is graded correct for
every answer value, and contributes 1 to the score already on the initial
all-unset store. -/
theorem dialogue_no_user_turns_correct (sc en : String) (d : List DialogueTurn)
    (h : userTurns d = []) :
    (∀ a : Answer, isExerciseCorrect (Exercise.dialogueSimulation sc en d) a = true) ∧
    checkAnswers [Exercise.dialogueSimulation sc en d]
      (initializeAnswers [Exercise.dialogueSimulation sc en d]) = some 1 := by
  constructor
  · intro a
    simp [isExerciseCorrect, h, dialogueEvery]
  · simp [checkAnswers, checkAnswersAux, initializeAnswers, initAnswer,
      isExerciseCorrect, h, dialogueEvery]

theorem dialogue_no_user_turns_correct_witness :
    userTurns [DialogueTurn.mk Speaker.agent (some "Hallo") none none none] = [] ∧
    isExerciseCorrect
      (Exercise.dialogueSimulation "s" "e"
        [DialogueTurn.mk Speaker.agent (some "Hallo") none none none])
      Answer.null = true :=
  ⟨by decide, (dialogue_no_user_turns_correct "s" "e" _ (by decide)).1 Answer.null⟩

/- ==================== C3: grading the initial store ==================== -/

/-- C3 counterexample: a sentence-scramble exercise whose correct sentence is
the empty string is graded correct on the all-unset store produced by
`initializeAnswers`, so the score is 1, not 0. -/
theorem grade_init_zero_cex :
    checkAnswers [Exercise.sentenceScramble "x" "" []]
      (initializeAnswers [Exercise.sentenceScramble "x" "" []]) = some 1 := by
  decide

/- ==================== C6: idempotence of mutators ==================== -/

/-- C6 counterexample: `handleWordMove` from the bank appends the word on every
call, so applying the same move twice does not equal applying it once. -/
theorem moveWord_not_idempotent_cex :
    handleWordMove false
        (handleWordMove false [Answer.arr []] 0 "wir" WordSource.bank none)
        0 "wir" WordSource.bank none
      ≠ handleWordMove false [Answer.arr []] 0 "wir" WordSource.bank none := by
  decide

/- ==================== C8: lesson-content fetch memoization ==================== -/

/-- C8 counterexample: with lesson l1 uncached, selecting it twice before the
first fetch resolves issues two fetches for the same id; and a late resolution
overwrites an already-cached entry. -/
theorem inflight_duplicate_fetch_cex :
    (handleSelectLesson [CatalogLevel.mk [LessonInfo.mk "l1" (some "f1")]]
        (handleSelectLesson [CatalogLevel.mk [LessonInfo.mk "l1" (some "f1")]]
          (SelectLessonState.mk [] []) "l1") "l1").fetchLog = ["l1", "l1"] ∧
    (resolveLessonFetch (SelectLessonState.mk [("l1", 1)] []) "l1" 2).loadedLessons
      = [("l1", 2)] := by
  constructor <;> decide

/-- C8 amended: selecting a lesson whose content is already cached issues no
fetch and leaves the whole state (cache and fetch log) unchanged. -/
theorem loaded_lesson_no_refetch (catalog : List CatalogLevel)
    (st : SelectLessonState) (lessonId : String)
    (h : (lookupLoaded st.loadedLessons lessonId).isSome = true) :
    handleSelectLesson catalog st lessonId = st := by
  cases hx : lookupLoaded st.loadedLessons lessonId with
  | none => rw [hx] at h; simp at h
  | some v => simp [handleSelectLesson, hx]

theorem loaded_lesson_no_refetch_witness :
    (lookupLoaded [("l1", 7)] "l1").isSome = true ∧
    handleSelectLesson [] (SelectLessonState.mk [("l1", 7)] []) "l1"
      = SelectLessonState.mk [("l1", 7)] [] :=
  ⟨by decide, loaded_lesson_no_refetch [] (SelectLessonState.mk [("l1", 7)] [])
    "l1" (by decide)⟩

/- ==================== C1: the grading engine counts correct exercises ==================== -/

theorem checkAnswersAux_eq_countP (exercises : List Exercise) :
    ∀ (rest : List Answer) (k : Nat), k + rest.length ≤ exercises.length →
      checkAnswersAux exercises rest k =
        some (((exercises.drop k).zip rest).countP
          (fun p => isExerciseCorrect p.1 p.2))
  | [], k, _ => by simp [checkAnswersAux]
  | a :: rest, k, h => by
      have hk : k < exercises.length := by
        simp at h
        omega
      have hget : exercises.get? k = some exercises[k] := by
        rw [List.get?_eq_getElem?]
        exact List.getElem?_eq_getElem hk
      have ih := checkAnswersAux_eq_countP exercises rest (k + 1)
        (by simp at h ⊢; omega)
      rw [List.drop_eq_getElem_cons hk]
      simp only [checkAnswersAux, hget, ih, List.zip_cons_cons, List.countP_cons]
      simp [Nat.add_comm]

theorem checkAnswers_eq_countP (exercises : List Exercise) (answers : List Answer)
    (hlen : answers.length = exercises.length) :
    checkAnswers exercises answers =
      some ((exercises.zip answers).countP (fun p => isExerciseCorrect p.1 p.2)) := by
  have h := checkAnswersAux_eq_countP exercises answers 0 (by omega)
  simpa [checkAnswers] using h

theorem jsEq_slotVal_str (xs : List (Option String)) (i : Nat) (k : String) :
    jsEq (slotVal xs i) (JSVal.str k) = decide (xs.get? i = some (some k)) := by
  unfold slotVal
  cases hx : xs.get? i with
  | none => simp [jsEq]
  | some o =>
      cases o with
      | none => simp [jsEq]
      | some s =>
          simp only [jsEq]
          by_cases h : s = k <;> simp [h]

theorem dialogueEvery_eq_spec (a : Answer) :
    ∀ (ts : List DialogueTurn) (i : Nat),
      ts.all (fun t => t.correctAnswer.isSome) = true →
      dialogueEvery a ts i = specDialogueOk a ts i
  | [], _, _ => rfl
  | t :: ts, i, h => by
      simp only [List.all_cons, Bool.and_eq_true] at h
      obtain ⟨k, hk⟩ := Option.isSome_iff_exists.mp h.1
      have ih := dialogueEvery_eq_spec a ts (i + 1) h.2
      cases a with
      | str s => simp [dialogueEvery, specDialogueOk, hk, ih]
      | null => simp [dialogueEvery, specDialogueOk, hk, ih]
      | arr xs =>
          simp [dialogueEvery, specDialogueOk, hk, optVal, jsEq_slotVal_str, ih]

theorem map_getD_eq_filterMap :
    ∀ xs : List (Option String), xs.all (fun o => o.isSome) = true →
      xs.map (fun o => o.getD "") = xs.filterMap id
  | [], _ => rfl
  | o :: xs, h => by
      simp only [List.all_cons, Bool.and_eq_true] at h
      obtain ⟨s, hs⟩ := Option.isSome_iff_exists.mp h.1
      subst hs
      simp [List.filterMap_cons, map_getD_eq_filterMap xs h.2]

/-- Under the shape side conditions, the code's per-exercise grading decision
coincides with the specification's wording of it. -/
theorem isExerciseCorrect_eq_spec (ex : Exercise) (a : Answer)
    (h : gradeShapeOk ex a = true) :
    isExerciseCorrect ex a = specCorrect ex a := by
  cases ex with
  | singleBlank s e hi o key => cases a <;> rfl
  | imageAssociation u e o key => cases a <;> rfl
  | doubleBlank s e hi o1 k1 o2 k2 =>
      cases a with
      | arr xs => simp [isExerciseCorrect, specCorrect, jsEq_slotVal_str]
      | str s2 => rfl
      | null => rfl
  | tripleBlank s e hi o1 k1 o2 k2 o3 k3 =>
      cases a with
      | arr xs => simp [isExerciseCorrect, specCorrect, jsEq_slotVal_str]
      | str s2 => rfl
      | null => rfl
  | sentenceScramble e c bag =>
      cases a with
      | arr xs =>
          simp only [gradeShapeOk] at h
          simp only [isExerciseCorrect, specCorrect, joinSpace]
          rw [map_getD_eq_filterMap xs h]
      | str s2 => rfl
      | null => rfl
  | dialogueSimulation sc en d =>
      simp only [gradeShapeOk] at h
      simp only [isExerciseCorrect, specCorrect]
      exact dialogueEvery_eq_spec a (userTurns d) 0 h

/-- C1: on a matching-shape store, `checkAnswers` returns exactly the count of
exercises whose answer is correct per the specification's per-variant rule. -/
theorem checkAnswers_counts_spec_correct (exercises : List Exercise)
    (answers : List Answer) (hlen : answers.length = exercises.length)
    (hshape : ∀ p ∈ exercises.zip answers, gradeShapeOk p.1 p.2 = true) :
    checkAnswers exercises answers =
      some ((exercises.zip answers).countP (fun p => specCorrect p.1 p.2)) := by
  rw [checkAnswers_eq_countP exercises answers hlen]
  exact congrArg some (List.countP_congr (fun p hp => by
    rw [isExerciseCorrect_eq_spec p.1 p.2 (hshape p hp)]))

theorem checkAnswers_counts_spec_correct_witness :
    ([Answer.str "bin", Answer.arr [some "du", none]].length =
      [Exercise.singleBlank "Ich ___" "I am" "h" ["bin", "bist"] "bin",
        Exercise.doubleBlank "a b" "e" "h" ["du"] "du" ["er"] "er"].length) ∧
    checkAnswers
        [Exercise.singleBlank "Ich ___" "I am" "h" ["bin", "bist"] "bin",
          Exercise.doubleBlank "a b" "e" "h" ["du"] "du" ["er"] "er"]
        [Answer.str "bin", Answer.arr [some "du", none]] =
      some (([Exercise.singleBlank "Ich ___" "I am" "h" ["bin", "bist"] "bin",
          Exercise.doubleBlank "a b" "e" "h" ["du"] "du" ["er"] "er"].zip
          [Answer.str "bin", Answer.arr [some "du", none]]).countP
        (fun p => specCorrect p.1 p.2)) :=
  ⟨rfl, checkAnswers_counts_spec_correct _ _ rfl (by decide)⟩

/- ==================== C3 amended: grading the initial store ==================== -/

theorem zip_map_self {α β : Type} (f : α → β) :
    ∀ l : List α, l.zip (l.map f) = l.map (fun x => (x, f x))
  | [] => rfl
  | x :: xs => by simp [zip_map_self f xs]

theorem init_not_correct (ex : Exercise) (h : nonDegenerate ex = true) :
    isExerciseCorrect ex (initAnswer ex) = false := by
  cases ex with
  | singleBlank s e hi o key => rfl
  | imageAssociation u e o key => rfl
  | doubleBlank s e hi o1 k1 o2 k2 => rfl
  | tripleBlank s e hi o1 k1 o2 k2 o3 k3 => rfl
  | sentenceScramble e c bag =>
      simp only [nonDegenerate, bne_iff_ne, ne_eq] at h
      simp only [isExerciseCorrect, initAnswer, joinSpace, List.map_nil]
      simp only [String.intercalate]
      exact beq_eq_false_iff_ne.mpr (fun hc => h hc.symm)
  | dialogueSimulation sc en d =>
      simp only [nonDegenerate] at h
      cases hu : userTurns d with
      | nil => rw [hu] at h; simp at h
      | cons t ts =>
          simp only [isExerciseCorrect, initAnswer, hu, List.length_cons,
            dialogueEvery]
          have hslot : slotVal (List.replicate (ts.length + 1) none) 0 = JSVal.null := rfl
          rw [hslot]
          cases hc : t.correctAnswer with
          | none => simp [optVal, jsEq]
          | some k => simp [optVal, jsEq]

/-- C3 amended: grading the all-unset store yields score 0 provided no
dialogue has zero user turns and no scramble has an empty correct sentence. -/
theorem grade_init_zero (exercises : List Exercise)
    (h : ∀ ex ∈ exercises, nonDegenerate ex = true) :
    checkAnswers exercises (initializeAnswers exercises) = some 0 := by
  rw [checkAnswers_eq_countP _ _ (by simp [initializeAnswers])]
  rw [initializeAnswers, zip_map_self, List.countP_map]
  refine congrArg some (List.countP_eq_zero.mpr ?_)
  intro ex hex
  simp only [Function.comp]
  rw [init_not_correct ex (h ex hex)]
  simp

theorem grade_init_zero_witness :
    (∀ ex ∈ [Exercise.doubleBlank "a" "e" "h" ["x"] "x" ["y"] "y",
        Exercise.sentenceScramble "e" "Wir gehen" ["gehen", "Wir"]],
      nonDegenerate ex = true) ∧
    checkAnswers
        [Exercise.doubleBlank "a" "e" "h" ["x"] "x" ["y"] "y",
          Exercise.sentenceScramble "e" "Wir gehen" ["gehen", "Wir"]]
        (initializeAnswers
          [Exercise.doubleBlank "a" "e" "h" ["x"] "x" ["y"] "y",
            Exercise.sentenceScramble "e" "Wir gehen" ["gehen", "Wir"]]) = some 0 :=
  ⟨by decide, grade_init_zero _ (by decide)⟩

/- ==================== C2 / C10: the completeness gate ==================== -/

theorem any_isNone_eq_not_all_isSome :
    ∀ xs : List (Option String),
      xs.any (fun o => o.isNone) = !xs.all (fun o => o.isSome)
  | [] => rfl
  | o :: xs => by cases o <;> simp [any_isNone_eq_not_all_isSome xs]

/-- Under the gate's shape side condition, the per-answer test of
`isCheckButtonDisabled` is the negation of the claim's fully-formed
predicate. -/
theorem violated_eq (ex : Exercise) (a : Answer) (h : gateShapeOk ex a = true) :
    completeRequirementViolated ex a = some (!fullyFormed ex a) := by
  cases ex with
  | singleBlank s e hi o key => cases a <;> rfl
  | imageAssociation u e o key => cases a <;> rfl
  | doubleBlank s e hi o1 k1 o2 k2 =>
      cases a with
      | arr xs =>
          simp [completeRequirementViolated, fullyFormed,
            any_isNone_eq_not_all_isSome]
      | str s2 => rfl
      | null => rfl
  | tripleBlank s e hi o1 k1 o2 k2 o3 k3 =>
      cases a with
      | arr xs =>
          simp [completeRequirementViolated, fullyFormed,
            any_isNone_eq_not_all_isSome]
      | str s2 => rfl
      | null => rfl
  | dialogueSimulation sc en d =>
      cases a with
      | arr xs =>
          simp [completeRequirementViolated, fullyFormed,
            any_isNone_eq_not_all_isSome]
      | str s2 => rfl
      | null => rfl
  | sentenceScramble e c bag =>
      cases a with
      | arr xs => rfl
      | str s2 => simp [gateShapeOk] at h
      | null => simp [gateShapeOk] at h

theorem anyIncomplete_eq (exercises : List Exercise) :
    ∀ (rest : List Answer) (k : Nat), k + rest.length ≤ exercises.length →
      (∀ p ∈ (exercises.drop k).zip rest, gateShapeOk p.1 p.2 = true) →
      anyIncomplete exercises rest k =
        some (((exercises.drop k).zip rest).any (fun p => !fullyFormed p.1 p.2))
  | [], _, _, _ => by simp [anyIncomplete]
  | a :: rest, k, hran, hsh => by
      have hk : k < exercises.length := by
        simp at hran
        omega
      have hget : exercises.get? k = some exercises[k] := by
        rw [List.get?_eq_getElem?]
        exact List.getElem?_eq_getElem hk
      have hdrop : exercises.drop k = exercises[k] :: exercises.drop (k + 1) :=
        List.drop_eq_getElem_cons hk
      rw [hdrop] at hsh ⊢
      rw [List.zip_cons_cons] at hsh ⊢
      have hsh0 : gateShapeOk exercises[k] a = true :=
        hsh (exercises[k], a) (List.mem_cons_self _ _)
      have hviol := violated_eq exercises[k] a hsh0
      have ih := anyIncomplete_eq exercises rest (k + 1)
        (by simp at hran ⊢; omega)
        (fun p hp => hsh p (List.mem_cons_of_mem _ hp))
      simp only [anyIncomplete, hget, hviol, List.any_cons]
      cases hf : fullyFormed exercises[k] a with
      | false => simp
      | true => simp [ih]

/-- C2: for a non-empty set with a matching-shape store, checking is enabled
(the gate reads `some false`) iff every exercise's answer is fully formed; for
the empty set the gate always disables checking. -/
theorem completeness_gate_iff :
    (∀ (exercises : List Exercise) (answers : List Answer),
      exercises ≠ [] → answers.length = exercises.length →
      (∀ p ∈ exercises.zip answers, gateShapeOk p.1 p.2 = true) →
      (isCheckButtonDisabled exercises answers = some false ↔
        ∀ p ∈ exercises.zip answers, fullyFormed p.1 p.2 = true)) ∧
    (∀ answers, isCheckButtonDisabled [] answers = some true) := by
  constructor
  · intro exercises answers hne hlen hsh
    have hempty : exercises.isEmpty = false := by
      cases exercises with
      | nil => exact absurd rfl hne
      | cons x xs => rfl
    rw [isCheckButtonDisabled, hempty]
    rw [anyIncomplete_eq exercises answers 0 (by omega)
      (by simpa using hsh)]
    simp only [List.drop_zero, if_false, Bool.false_eq_true, Option.some.injEq]
    rw [List.any_eq_false]
    constructor
    · intro hall p hp
      have := hall p hp
      simpa using this
    · intro hall p hp
      simp [hall p hp]
  · intro answers
    rfl

theorem completeness_gate_iff_witness :
    isCheckButtonDisabled
        [Exercise.doubleBlank "a" "e" "h" ["x"] "x" ["y"] "y"]
        [Answer.arr [some "x", some "q"]] = some false :=
  ((completeness_gate_iff.1
      [Exercise.doubleBlank "a" "e" "h" ["x"] "x" ["y"] "y"]
      [Answer.arr [some "x", some "q"]]
      (by decide) rfl (by decide)).mpr (by decide))

theorem anyIncomplete_overflow (exercises : List Exercise) :
    ∀ (rest : List Answer) (k : Nat), k ≤ exercises.length →
      exercises.length < k + rest.length →
      (∀ p ∈ (exercises.drop k).zip rest, gateShapeOk p.1 p.2 = true) →
      anyIncomplete exercises rest k = some true
  | [], k, hk, hover, _ => by
      simp only [List.length_nil, Nat.add_zero] at hover
      exact absurd hk (by omega)
  | a :: rest, k, hk, hover, hsh => by
      cases hget : exercises.get? k with
      | none =>
          rw [List.get?_eq_getElem?] at hget
          simp [anyIncomplete, hget]
      | some ex =>
          have hklt : k < exercises.length := by
            rcases List.get?_eq_some.mp hget with ⟨h, _⟩
            exact h
          have hdrop : exercises.drop k = exercises[k] :: exercises.drop (k + 1) :=
            List.drop_eq_getElem_cons hklt
          have hex : ex = exercises[k] := by
            rw [List.get?_eq_getElem?, List.getElem?_eq_getElem hklt] at hget
            exact (Option.some.inj hget).symm
          rw [hdrop, List.zip_cons_cons] at hsh
          have hsh0 : gateShapeOk ex a = true := by
            rw [hex]
            exact hsh (exercises[k], a) (List.mem_cons_self _ _)
          have hviol := violated_eq ex a hsh0
          have ih := anyIncomplete_overflow exercises rest (k + 1) hklt
            (by simp at hover ⊢; omega)
            (fun p hp => hsh p (List.mem_cons_of_mem _ hp))
          simp only [anyIncomplete, hget, hviol]
          cases hf : fullyFormed ex a with
          | false => simp
          | true => simpa using ih

/-- C10: the gate iterates the answers array, not the exercise set — a shorter
answers array with a fully formed prefix enables checking even though later
exercises have no answer at all, while any answer beyond the exercise set
disables checking. -/
theorem gate_quantifies_over_answers :
    (∀ (exercises : List Exercise) (answers : List Answer),
      exercises ≠ [] → answers.length ≤ exercises.length →
      (∀ p ∈ exercises.zip answers,
        gateShapeOk p.1 p.2 = true ∧ fullyFormed p.1 p.2 = true) →
      isCheckButtonDisabled exercises answers = some false) ∧
    (∀ (exercises : List Exercise) (answers : List Answer),
      exercises ≠ [] → exercises.length < answers.length →
      (∀ p ∈ exercises.zip answers, gateShapeOk p.1 p.2 = true) →
      isCheckButtonDisabled exercises answers = some true) := by
  constructor
  · intro exercises answers hne hlen hsh
    have hempty : exercises.isEmpty = false := by
      cases exercises with
      | nil => exact absurd rfl hne
      | cons x xs => rfl
    rw [isCheckButtonDisabled, hempty]
    rw [anyIncomplete_eq exercises answers 0 (by omega)
      (by simpa using fun p hp => (hsh p hp).1)]
    simp only [List.drop_zero, if_false, Bool.false_eq_true, Option.some.injEq]
    rw [List.any_eq_false]
    intro p hp
    simp [(hsh p hp).2]
  · intro exercises answers hne hlen hsh
    have hempty : exercises.isEmpty = false := by
      cases exercises with
      | nil => exact absurd rfl hne
      | cons x xs => rfl
    rw [isCheckButtonDisabled, hempty]
    simp only [if_false, Bool.false_eq_true]
    exact anyIncomplete_overflow exercises answers 0 (by omega) (by omega)
      (by simpa using hsh)

theorem gate_quantifies_over_answers_witness :
    isCheckButtonDisabled
        [Exercise.singleBlank "s" "e" "h" ["a"] "a",
          Exercise.singleBlank "t" "e" "h" ["b"] "b"]
        [Answer.str "a"] = some false ∧
    isCheckButtonDisabled
        [Exercise.singleBlank "s" "e" "h" ["a"] "a"]
        [Answer.str "a", Answer.null] = some true :=
  ⟨gate_quantifies_over_answers.1
      [Exercise.singleBlank "s" "e" "h" ["a"] "a",
        Exercise.singleBlank "t" "e" "h" ["b"] "b"]
      [Answer.str "a"] (by decide) (by decide) (by decide),
    gate_quantifies_over_answers.2
      [Exercise.singleBlank "s" "e" "h" ["a"] "a"]
      [Answer.str "a", Answer.null] (by decide) (by decide) (by decide)⟩

/- ==================== C5: word bank and moveWord round trip ==================== -/

theorem removeFirst_eq_erase :
    ∀ (l : List String) (a : String), removeFirst l a = l.erase a
  | [], _ => rfl
  | x :: xs, a => by
      rw [removeFirst, List.erase_cons]
      by_cases h : x = a
      · simp [h]
      · simp [h, removeFirst_eq_erase xs a, beq_eq_false_iff_ne.mpr h]

/-- The derived word bank is the multiset difference of the scrambled bag and
the built sequence. -/
theorem bankWords_multiset (bag built : List String) :
    (↑(bankWords bag built) : Multiset String) = ↑bag - ↑built := by
  have h1 : bankWords bag built = bag.diff built := by
    rw [List.diff_eq_foldl]
    unfold bankWords
    have h2 : removeFirst = fun (l : List String) (a : String) => l.erase a :=
      funext fun l => funext fun a => removeFirst_eq_erase l a
    rw [h2]
  rw [h1, Multiset.coe_sub]

theorem eraseIdx_append_singleton {α : Type} :
    ∀ (l : List α) (x : α), (l ++ [x]).eraseIdx l.length = l
  | [], _ => rfl
  | a :: l, x => by
      simp only [List.cons_append, List.length_cons, List.eraseIdx]
      exact congrArg (fun t => a :: t) (eraseIdx_append_singleton l x)

theorem eraseIdx_map_some :
    ∀ (l : List String) (j : Nat),
      (l.map some).eraseIdx j = (l.eraseIdx j).map some
  | [], _ => rfl
  | _ :: _, 0 => rfl
  | x :: l, j + 1 => by
      simp only [List.map_cons, List.eraseIdx]
      rw [eraseIdx_map_some l j]

theorem eraseIdx_append_get_perm :
    ∀ (l : List String) (j : Nat) (hj : j < l.length),
      (l.eraseIdx j ++ [l.get ⟨j, hj⟩]).Perm l
  | x :: l, 0, _ => List.perm_append_singleton x l
  | x :: l, j + 1, hj => by
      simp only [List.eraseIdx, List.get, List.cons_append]
      exact List.Perm.cons x (eraseIdx_append_get_perm l j (by
        simp at hj
        omega))

theorem listSetAnswer_get? (xs : List Answer) (i : Nat) (v : Answer) :
    (listSetAnswer xs i v).get? i = some v :=
  jsArraySet_get? xs i v Answer.null

theorem listSetSlot_get? (xs : List (Option String)) (i : Nat)
    (v : Option String) : (listSetSlot xs i v).get? i = some v :=
  jsArraySet_get? xs i v none

theorem listSetAnswer_same (xs : List Answer) (i : Nat) (v : Answer) :
    listSetAnswer (listSetAnswer xs i v) i v = listSetAnswer xs i v :=
  jsArraySet_same xs i v Answer.null Answer.null

theorem listSetSlot_same (xs : List (Option String)) (i : Nat)
    (v : Option String) :
    listSetSlot (listSetSlot xs i v) i v = listSetSlot xs i v :=
  jsArraySet_same xs i v none none

theorem handleWordMove_bank_eq (answers : List Answer) (i : Nat)
    (built : List (Option String)) (w : String)
    (h : answers.get? i = some (Answer.arr built)) :
    handleWordMove false answers i w WordSource.bank none
      = answers.set i (Answer.arr (built ++ [some w])) := by
  have hlt : i < answers.length := by
    rcases List.get?_eq_some.mp h with ⟨h1, _⟩
    exact h1
  unfold handleWordMove listSetAnswer
  rw [if_neg (by simp), h]
  simp only [sentenceOfAnswer]
  exact jsArraySet_eq_set_of_lt _ _ hlt

theorem handleWordMove_sentence_eq (answers : List Answer) (i : Nat)
    (built : List (Option String)) (w : String) (j : Nat)
    (h : answers.get? i = some (Answer.arr built)) :
    handleWordMove false answers i w WordSource.sentence (some j)
      = answers.set i (Answer.arr (built.eraseIdx j)) := by
  have hlt : i < answers.length := by
    rcases List.get?_eq_some.mp h with ⟨h1, _⟩
    exact h1
  unfold handleWordMove listSetAnswer
  rw [if_neg (by simp), h]
  simp only [sentenceOfAnswer]
  exact jsArraySet_eq_set_of_lt _ _ hlt

/-- C5: the word bank is the multiset difference between the scrambled bag and
the built sequence; placing a word and removing it again at its position
restores the store exactly; removing a word by position and placing it back
re-appends it, leaving the built sequence and hence the derived bank unchanged
as multisets (the original bank/sequence split). -/
theorem bank_diff_and_moveWord_roundtrip :
    (∀ bag built : List String,
      (↑(bankWords bag built) : Multiset String) = ↑bag - ↑built) ∧
    (∀ (answers : List Answer) (i : Nat) (built : List String) (w : String),
      answers.get? i = some (Answer.arr (built.map some)) →
      handleWordMove false
          (handleWordMove false answers i w WordSource.bank none)
          i w WordSource.sentence (some built.length) = answers) ∧
    (∀ (answers : List Answer) (i : Nat) (built : List String) (j : Nat)
      (hj : j < built.length),
      answers.get? i = some (Answer.arr (built.map some)) →
      handleWordMove false
          (handleWordMove false answers i (built.get ⟨j, hj⟩)
            WordSource.sentence (some j))
          i (built.get ⟨j, hj⟩) WordSource.bank none
        = answers.set i
            (Answer.arr ((built.eraseIdx j ++ [built.get ⟨j, hj⟩]).map some)) ∧
      (↑(built.eraseIdx j ++ [built.get ⟨j, hj⟩]) : Multiset String) = ↑built ∧
      ∀ bag : List String,
        (↑(bankWords bag (built.eraseIdx j ++ [built.get ⟨j, hj⟩])) :
            Multiset String)
          = ↑(bankWords bag built)) := by
  refine ⟨bankWords_multiset, ?_, ?_⟩
  · intro answers i built w h
    have hlt : i < answers.length := by
      rcases List.get?_eq_some.mp h with ⟨h1, _⟩
      exact h1
    rw [handleWordMove_bank_eq answers i (built.map some) w h]
    have hget1 : (answers.set i (Answer.arr (built.map some ++ [some w]))).get? i
        = some (Answer.arr (built.map some ++ [some w])) := by
      rw [List.get?_eq_getElem?]
      exact List.getElem?_set_self hlt
    rw [handleWordMove_sentence_eq _ i (built.map some ++ [some w]) w
      built.length hget1]
    have herase : (built.map some ++ [some w]).eraseIdx built.length
        = built.map some := by
      have h2 := eraseIdx_append_singleton (built.map some) (some w)
      simpa using h2
    rw [herase, List.set_set]
    exact list_set_same answers i _ h
  · intro answers i built j hj h
    have hlt : i < answers.length := by
      rcases List.get?_eq_some.mp h with ⟨h1, _⟩
      exact h1
    refine ⟨?_, Multiset.coe_eq_coe.mpr (eraseIdx_append_get_perm built j hj), ?_⟩
    · rw [handleWordMove_sentence_eq answers i (built.map some)
        (built.get ⟨j, hj⟩) j h]
      rw [eraseIdx_map_some built j]
      have hget1 : (answers.set i
          (Answer.arr ((built.eraseIdx j).map some))).get? i
          = some (Answer.arr ((built.eraseIdx j).map some)) := by
        rw [List.get?_eq_getElem?]
        exact List.getElem?_set_self hlt
      rw [handleWordMove_bank_eq _ i ((built.eraseIdx j).map some)
        (built.get ⟨j, hj⟩) hget1]
      rw [List.set_set]
      rw [List.map_append]
      rfl
    · intro bag
      rw [bankWords_multiset, bankWords_multiset,
        Multiset.coe_eq_coe.mpr (eraseIdx_append_get_perm built j hj)]

theorem bank_diff_and_moveWord_roundtrip_witness :
    handleWordMove false
        (handleWordMove false [Answer.arr [some "a"]] 0 "b" WordSource.bank none)
        0 "b" WordSource.sentence (some 1) = [Answer.arr [some "a"]] :=
  bank_diff_and_moveWord_roundtrip.2.1 [Answer.arr [some "a"]] 0 ["a"] "b" rfl

/- ==================== C6 amended: setChoice idempotence, no throwing ==================== -/

theorem handleAnswerSelect_double_eq (exercises : List Exercise)
    (answers : List Answer) (i : Nat) (opt : String) (b : Nat)
    (s e hi : String) (o1 : List String) (k1 : String) (o2 : List String)
    (k2 : String)
    (hget : exercises.get? i = some (Exercise.doubleBlank s e hi o1 k1 o2 k2)) :
    handleAnswerSelect false exercises answers i opt (some b)
      = some (listSetAnswer answers i (Answer.arr (listSetSlot
          (tupleOfAnswer (answers.get? i) [none, none]) b (some opt)))) := by
  unfold handleAnswerSelect
  rw [if_neg (by simp), hget]

theorem handleAnswerSelect_triple_eq (exercises : List Exercise)
    (answers : List Answer) (i : Nat) (opt : String) (b : Nat)
    (s e hi : String) (o1 : List String) (k1 : String) (o2 : List String)
    (k2 : String) (o3 : List String) (k3 : String)
    (hget : exercises.get? i
      = some (Exercise.tripleBlank s e hi o1 k1 o2 k2 o3 k3)) :
    handleAnswerSelect false exercises answers i opt (some b)
      = some (listSetAnswer answers i (Answer.arr (listSetSlot
          (tupleOfAnswer (answers.get? i) [none, none, none]) b (some opt)))) := by
  unfold handleAnswerSelect
  rw [if_neg (by simp), hget]

theorem handleAnswerSelect_else_eq (exercises : List Exercise)
    (answers : List Answer) (i : Nat) (opt : String) (bi : Option Nat)
    (ex : Exercise) (hget : exercises.get? i = some ex)
    (hnot : (match ex, bi with
      | Exercise.doubleBlank _ _ _ _ _ _ _, some _ => false
      | Exercise.tripleBlank _ _ _ _ _ _ _ _ _, some _ => false
      | _, _ => true) = true) :
    handleAnswerSelect false exercises answers i opt bi
      = some (listSetAnswer answers i (Answer.str opt)) := by
  unfold handleAnswerSelect
  rw [if_neg (by simp), hget]
  cases ex <;> cases bi <;> first | rfl | exact absurd hnot (by simp)

theorem handleAnswerSelect_idem (c : Bool) (exercises : List Exercise)
    (answers r : List Answer) (i : Nat) (opt : String) (bi : Option Nat)
    (h : handleAnswerSelect c exercises answers i opt bi = some r) :
    handleAnswerSelect c exercises r i opt bi = some r := by
  cases c with
  | true =>
      have h1 : handleAnswerSelect true exercises answers i opt bi
          = some answers := rfl
      rw [h1] at h
      injection h with h
      subst h
      rfl
  | false =>
      cases hget : exercises.get? i with
      | none =>
          have h1 : handleAnswerSelect false exercises answers i opt bi = none := by
            unfold handleAnswerSelect
            rw [if_neg (by simp), hget]
          rw [h1] at h
          exact absurd h (by simp)
      | some ex =>
          cases ex with
          | doubleBlank s e hi o1 k1 o2 k2 =>
              cases bi with
              | none =>
                  rw [handleAnswerSelect_else_eq exercises answers i opt none _
                    hget rfl] at h
                  injection h with h
                  subst h
                  rw [handleAnswerSelect_else_eq exercises _ i opt none _ hget rfl]
                  exact congrArg some (listSetAnswer_same answers i _)
              | some b =>
                  rw [handleAnswerSelect_double_eq exercises answers i opt b
                    s e hi o1 k1 o2 k2 hget] at h
                  injection h with h
                  subst h
                  rw [handleAnswerSelect_double_eq exercises _ i opt b
                    s e hi o1 k1 o2 k2 hget]
                  rw [listSetAnswer_get?]
                  simp only [tupleOfAnswer]
                  rw [listSetSlot_same]
                  exact congrArg some (listSetAnswer_same answers i _)
          | tripleBlank s e hi o1 k1 o2 k2 o3 k3 =>
              cases bi with
              | none =>
                  rw [handleAnswerSelect_else_eq exercises answers i opt none _
                    hget rfl] at h
                  injection h with h
                  subst h
                  rw [handleAnswerSelect_else_eq exercises _ i opt none _ hget rfl]
                  exact congrArg some (listSetAnswer_same answers i _)
              | some b =>
                  rw [handleAnswerSelect_triple_eq exercises answers i opt b
                    s e hi o1 k1 o2 k2 o3 k3 hget] at h
                  injection h with h
                  subst h
                  rw [handleAnswerSelect_triple_eq exercises _ i opt b
                    s e hi o1 k1 o2 k2 o3 k3 hget]
                  rw [listSetAnswer_get?]
                  simp only [tupleOfAnswer]
                  rw [listSetSlot_same]
                  exact congrArg some (listSetAnswer_same answers i _)
          | singleBlank s e hi o k =>
              rw [handleAnswerSelect_else_eq exercises answers i opt bi _
                hget (by cases bi <;> rfl)] at h
              injection h with h
              subst h
              rw [handleAnswerSelect_else_eq exercises _ i opt bi _ hget
                (by cases bi <;> rfl)]
              exact congrArg some (listSetAnswer_same answers i _)
          | imageAssociation u e o k =>
              rw [handleAnswerSelect_else_eq exercises answers i opt bi _
                hget (by cases bi <;> rfl)] at h
              injection h with h
              subst h
              rw [handleAnswerSelect_else_eq exercises _ i opt bi _ hget
                (by cases bi <;> rfl)]
              exact congrArg some (listSetAnswer_same answers i _)
          | sentenceScramble e cs bag =>
              rw [handleAnswerSelect_else_eq exercises answers i opt bi _
                hget (by cases bi <;> rfl)] at h
              injection h with h
              subst h
              rw [handleAnswerSelect_else_eq exercises _ i opt bi _ hget
                (by cases bi <;> rfl)]
              exact congrArg some (listSetAnswer_same answers i _)
          | dialogueSimulation sc en d =>
              rw [handleAnswerSelect_else_eq exercises answers i opt bi _
                hget (by cases bi <;> rfl)] at h
              injection h with h
              subst h
              rw [handleAnswerSelect_else_eq exercises _ i opt bi _ hget
                (by cases bi <;> rfl)]
              exact congrArg some (listSetAnswer_same answers i _)

theorem handleDialogueAnswer_none_eq (answers : List Answer) (i ti : Nat)
    (choice : String) (hget : answers.get? i = none) :
    handleDialogueAnswer false answers i ti choice = none := by
  unfold handleDialogueAnswer
  rw [if_neg (by simp), hget]

theorem handleDialogueAnswer_null_eq (answers : List Answer) (i ti : Nat)
    (choice : String) (hget : answers.get? i = some Answer.null) :
    handleDialogueAnswer false answers i ti choice = none := by
  unfold handleDialogueAnswer
  rw [if_neg (by simp), hget]

theorem handleDialogueAnswer_str_eq (answers : List Answer) (i ti : Nat)
    (choice s : String) (hget : answers.get? i = some (Answer.str s)) :
    handleDialogueAnswer false answers i ti choice
      = some (listSetAnswer answers i
          (Answer.arr (listSetSlot (strChars s) ti (some choice)))) := by
  unfold handleDialogueAnswer
  rw [if_neg (by simp), hget]

theorem handleDialogueAnswer_arr_eq (answers : List Answer) (i ti : Nat)
    (choice : String) (xs : List (Option String))
    (hget : answers.get? i = some (Answer.arr xs)) :
    handleDialogueAnswer false answers i ti choice
      = some (listSetAnswer answers i
          (Answer.arr (listSetSlot xs ti (some choice)))) := by
  unfold handleDialogueAnswer
  rw [if_neg (by simp), hget]

theorem handleDialogueAnswer_idem (c : Bool) (answers r : List Answer)
    (i ti : Nat) (choice : String)
    (h : handleDialogueAnswer c answers i ti choice = some r) :
    handleDialogueAnswer c r i ti choice = some r := by
  cases c with
  | true =>
      have h1 : handleDialogueAnswer true answers i ti choice
          = some answers := rfl
      rw [h1] at h
      injection h with h
      subst h
      rfl
  | false =>
      cases hget : answers.get? i with
      | none =>
          rw [handleDialogueAnswer_none_eq answers i ti choice hget] at h
          exact absurd h (by simp)
      | some a =>
          cases a with
          | null =>
              rw [handleDialogueAnswer_null_eq answers i ti choice hget] at h
              exact absurd h (by simp)
          | str s =>
              rw [handleDialogueAnswer_str_eq answers i ti choice s hget] at h
              injection h with h
              subst h
              rw [handleDialogueAnswer_arr_eq _ i ti choice _
                (listSetAnswer_get? answers i _)]
              rw [listSetSlot_same]
              exact congrArg some (listSetAnswer_same answers i _)
          | arr xs =>
              rw [handleDialogueAnswer_arr_eq answers i ti choice xs hget] at h
              injection h with h
              subst h
              rw [handleDialogueAnswer_arr_eq _ i ti choice _
                (listSetAnswer_get? answers i _)]
              rw [listSetSlot_same]
              exact congrArg some (listSetAnswer_same answers i _)

theorem handleAnswerSelect_isSome (c : Bool) (exercises : List Exercise)
    (answers : List Answer) (i : Nat) (opt : String) (bi : Option Nat)
    (h : i < exercises.length) :
    (handleAnswerSelect c exercises answers i opt bi).isSome = true := by
  cases c with
  | true => rfl
  | false =>
      unfold handleAnswerSelect
      rw [if_neg (by simp)]
      have hget : exercises.get? i = some exercises[i] := by
        rw [List.get?_eq_getElem?]
        exact List.getElem?_eq_getElem h
      rw [hget]
      cases hx : exercises[i] <;> cases bi <;> rfl

theorem handleDialogueAnswer_isSome (c : Bool) (answers : List Answer)
    (i ti : Nat) (choice : String) (xs : List (Option String))
    (h : answers.get? i = some (Answer.arr xs)) :
    (handleDialogueAnswer c answers i ti choice).isSome = true := by
  cases c with
  | true => rfl
  | false => rw [handleDialogueAnswer_arr_eq answers i ti choice xs h]; rfl

/-- C6 amended: the setChoice mutators (`handleAnswerSelect`, including the
double/triple tuple slots, and the dialogue-turn setter) are idempotent under
repeated identical input, and neither throws for a valid target
(`handleAnswerSelect` whenever the exercise index is in range, the dialogue
setter whenever the target answer entry is a tuple; `handleWordMove` is total
by construction).  `handleWordMove` itself is not idempotent: moving a word
from the bank appends one occurrence per call. -/
theorem setChoice_idempotent_and_no_throw :
    (∀ (c : Bool) (exercises : List Exercise) (answers r : List Answer)
      (i : Nat) (opt : String) (bi : Option Nat),
      handleAnswerSelect c exercises answers i opt bi = some r →
      handleAnswerSelect c exercises r i opt bi = some r) ∧
    (∀ (c : Bool) (answers r : List Answer) (i ti : Nat) (choice : String),
      handleDialogueAnswer c answers i ti choice = some r →
      handleDialogueAnswer c r i ti choice = some r) ∧
    (∀ (c : Bool) (exercises : List Exercise) (answers : List Answer) (i : Nat)
      (opt : String) (bi : Option Nat), i < exercises.length →
      (handleAnswerSelect c exercises answers i opt bi).isSome = true) ∧
    (∀ (c : Bool) (answers : List Answer) (i ti : Nat) (choice : String)
      (xs : List (Option String)), answers.get? i = some (Answer.arr xs) →
      (handleDialogueAnswer c answers i ti choice).isSome = true) :=
  ⟨handleAnswerSelect_idem, handleDialogueAnswer_idem,
    handleAnswerSelect_isSome, handleDialogueAnswer_isSome⟩

theorem setChoice_idempotent_and_no_throw_witness :
    handleAnswerSelect false
        [Exercise.doubleBlank "a" "e" "h" ["x"] "x" ["y"] "y"]
        [Answer.arr [some "x", none]] 0 "x" (some 0)
      = some [Answer.arr [some "x", none]] :=
  setChoice_idempotent_and_no_throw.1 false
    [Exercise.doubleBlank "a" "e" "h" ["x"] "x" ["y"] "y"]
    [Answer.arr [none, none]] [Answer.arr [some "x", none]] 0 "x" (some 0)
    (by decide)

/- ==================== C7: per-option marks after checking ==================== -/

theorem markEq (o k : String) (selBool : Bool) (sel : Option String)
    (hsel : selBool = decide (sel = some o)) :
    (if o == k then "correct" else if selBool then "incorrect" else "")
      = claimMark o k sel := by
  unfold claimMark
  by_cases h : o = k
  · simp [h]
  · rw [if_neg (by simp [h]), if_neg h]
    subst hsel
    by_cases h2 : sel = some o <;> simp [h2]

theorem selBool_single (answers : List Answer) (i : Nat) (opt : String) :
    (match answers.get? i with
      | some (Answer.str s2) => s2 == opt
      | _ => false) = decide (selectedSingle answers i = some opt) := by
  unfold selectedSingle
  cases h : answers.get? i with
  | none => simp
  | some a =>
      cases a with
      | str s2 => by_cases h2 : s2 = opt <;> simp [h2]
      | arr xs => simp
      | null => simp

theorem selBool_dialogue (xs : List (Option String)) (ti : Nat) (opt : String) :
    jsEq (slotVal xs ti) (JSVal.str opt)
      = decide (dialogueSelected xs ti = some opt) := by
  unfold dialogueSelected
  rw [jsEq_slotVal_str]
  cases h2 : xs.get? ti with
  | none => simp
  | some o =>
      cases o with
      | none => simp
      | some s2 => by_cases h3 : s2 = opt <;> simp [h3]

theorem selBool_slot (answers : List Answer) (i bi : Nat) (opt : String) :
    (match answers.get? i with
      | some (Answer.arr xs) => jsEq (slotVal xs bi) (JSVal.str opt)
      | _ => false) = decide (selectedSlot answers i bi = some opt) := by
  unfold selectedSlot
  cases h : answers.get? i with
  | none => simp
  | some a =>
      cases a with
      | arr xs =>
          show jsEq (slotVal xs bi) (JSVal.str opt)
            = decide (dialogueSelected xs bi = some opt)
          exact selBool_dialogue xs bi opt
      | str s2 => simp
      | null => simp

/-- C7: after checking, every option of every choice-based position is marked
"correct" iff it equals that position's key, otherwise "incorrect" iff it
equals the learner's selection there, otherwise neutral — in particular the
key is marked correct even when unselected (`claimMark` makes no reference to
whether the key was selected). -/
theorem option_marks_after_check :
    (∀ (exercises : List Exercise) (answers : List Answer) (opt : String)
      (i : Nat) (s e hi : String) (o : List String) (key : String),
      exercises.get? i = some (Exercise.singleBlank s e hi o key) →
      getOptionClassName true exercises answers opt i none
        = some (claimMark opt key (selectedSingle answers i))) ∧
    (∀ (exercises : List Exercise) (answers : List Answer) (opt : String)
      (i : Nat) (u e : String) (o : List String) (key : String),
      exercises.get? i = some (Exercise.imageAssociation u e o key) →
      getOptionClassName true exercises answers opt i none
        = some (claimMark opt key (selectedSingle answers i))) ∧
    (∀ (exercises : List Exercise) (answers : List Answer) (opt : String)
      (i : Nat) (s e hi : String) (o1 : List String) (k1 : String)
      (o2 : List String) (k2 : String),
      exercises.get? i = some (Exercise.doubleBlank s e hi o1 k1 o2 k2) →
      getOptionClassName true exercises answers opt i (some 0)
          = some (claimMark opt k1 (selectedSlot answers i 0)) ∧
        getOptionClassName true exercises answers opt i (some 1)
          = some (claimMark opt k2 (selectedSlot answers i 1))) ∧
    (∀ (exercises : List Exercise) (answers : List Answer) (opt : String)
      (i : Nat) (s e hi : String) (o1 : List String) (k1 : String)
      (o2 : List String) (k2 : String) (o3 : List String) (k3 : String),
      exercises.get? i = some (Exercise.tripleBlank s e hi o1 k1 o2 k2 o3 k3) →
      getOptionClassName true exercises answers opt i (some 0)
          = some (claimMark opt k1 (selectedSlot answers i 0)) ∧
        getOptionClassName true exercises answers opt i (some 1)
          = some (claimMark opt k2 (selectedSlot answers i 1)) ∧
        getOptionClassName true exercises answers opt i (some 2)
          = some (claimMark opt k3 (selectedSlot answers i 2))) ∧
    (∀ (exercises : List Exercise) (answers : List Answer) (opt : String)
      (i ti : Nat) (sc en : String) (d : List DialogueTurn)
      (xs : List (Option String)) (turn : DialogueTurn) (k : String),
      exercises.get? i = some (Exercise.dialogueSimulation sc en d) →
      answers.get? i = some (Answer.arr xs) →
      (userTurns d).get? ti = some turn →
      turn.correctAnswer = some k →
      getDialogueOptionClassName true exercises answers opt i ti
        = some (claimMark opt k (dialogueSelected xs ti))) := by
  refine ⟨?_, ?_, ?_, ?_, ?_⟩
  · intro exercises answers opt i s e hi o key hget
    simp only [getOptionClassName, Bool.true_eq_false, if_false, hget]
    rw [markEq opt key _ _ (selBool_single answers i opt)]
  · intro exercises answers opt i u e o key hget
    simp only [getOptionClassName, Bool.true_eq_false, if_false, hget]
    rw [markEq opt key _ _ (selBool_single answers i opt)]
  · intro exercises answers opt i s e hi o1 k1 o2 k2 hget
    constructor
    · simp only [getOptionClassName, Bool.true_eq_false, if_false, if_true, hget]
      rw [markEq opt k1 _ _ (selBool_slot answers i 0 opt)]
    · simp only [getOptionClassName, Bool.true_eq_false, if_false, if_true, hget]
      rw [if_neg (by omega : ¬(1 : Nat) = 0)]
      rw [markEq opt k2 _ _ (selBool_slot answers i 1 opt)]
  · intro exercises answers opt i s e hi o1 k1 o2 k2 o3 k3 hget
    refine ⟨?_, ?_, ?_⟩
    · simp only [getOptionClassName, Bool.true_eq_false, if_false, if_true, hget]
      rw [markEq opt k1 _ _ (selBool_slot answers i 0 opt)]
    · simp only [getOptionClassName, Bool.true_eq_false, if_false, if_true, hget]
      rw [if_neg (by omega : ¬(1 : Nat) = 0)]
      rw [markEq opt k2 _ _ (selBool_slot answers i 1 opt)]
    · simp only [getOptionClassName, Bool.true_eq_false, if_false, if_true, hget]
      rw [if_neg (by omega : ¬(2 : Nat) = 0), if_neg (by omega : ¬(2 : Nat) = 1)]
      rw [markEq opt k3 _ _ (selBool_slot answers i 2 opt)]
  · intro exercises answers opt i ti sc en d xs turn k hex hans hturn hk
    simp only [getDialogueOptionClassName, hans, getDialogueOptionClassNameCore,
      Bool.true_eq_false, if_false, hex, hturn, hk, optVal]
    have h1 : jsEq (JSVal.str opt) (JSVal.str k) = (opt == k) := rfl
    rw [h1]
    rw [markEq opt k _ _ (selBool_dialogue xs ti opt)]

theorem option_marks_after_check_witness :
    getOptionClassName true
        [Exercise.singleBlank "s" "e" "h" ["a", "b"] "a"]
        [Answer.str "b"] "b" 0 none
      = some (claimMark "b" "a"
          (selectedSingle [Answer.str "b"] 0)) :=
  option_marks_after_check.1
    [Exercise.singleBlank "s" "e" "h" ["a", "b"] "a"]
    [Answer.str "b"] "b" 0 "s" "e" "h" ["a", "b"] "a" rfl

end DeutschLernen
